import Mathlib

/-!
Shallow embedding of `src/grid/griddata_bkh.py` (class `GridData`).

Dates parsed from the `SETTLEMENT_DATE` column are modelled as a
(year, day-of-year) pair; demand readings (`ND`, in MW) and all derived
numeric arrays are modelled as rational numbers; numpy column vectors are
modelled as plain lists.  Python instance attributes that may be absent
(everything set by `load_model` / `load_model_output`) are `Option` fields
of the state record, `none` meaning the attribute was never assigned.
-/

/-- A calendar date as pandas exposes it to this code: the `.dt.year`
and `.dt.dayofyear` accessors (1-based day index within the year). -/
structure Date where
  year : Int
  doy : Nat
deriving DecidableEq, Repr

/-- Chronological strict order on dates: lexicographic on (year, day-of-year). -/
def Date.before (a b : Date) : Prop :=
  a.year < b.year ∨ (a.year = b.year ∧ a.doy < b.doy)

instance (a b : Date) : Decidable (Date.before a b) := by
  unfold Date.before; infer_instance

/-- `np.mean` over a list of values: sum divided by length
(0 on the empty list, which never occurs on reachable inputs). -/
def listMean (l : List ℚ) : ℚ := l.sum / l.length

/-- Python `max` over a list of naturals (the source only applies it to
nonempty lists, where the 0 seed is absorbed). -/
def listMax (l : List ℕ) : ℕ := l.foldl Nat.max 0

/-- Insert into a sorted duplicate-free list, keeping it sorted and
duplicate-free.  `lt` is the strict order used for sorting. -/
def insertUnique {α : Type} [BEq α] (lt : α → α → Bool) (a : α) : List α → List α
  | [] => [a]
  | b :: bs =>
    if lt a b then a :: b :: bs
    else if a == b then b :: bs
    else b :: insertUnique lt a bs

/-- Sorted deduplication: the semantics shared by `np.unique` and the key
set of `pandas.groupby` (both return the distinct values in ascending
order). -/
def sortUnique {α : Type} [BEq α] (lt : α → α → Bool) (l : List α) : List α :=
  l.foldr (insertUnique lt) []

/-- `np.unique` on the YEAR column. -/
def npUnique (l : List Int) : List Int := sortUnique (fun a b => decide (a < b)) l

/-- The distinct dates of the input, ascending: the group keys of
`self.grid.groupby('DATE')`. -/
def uniqueSortedDates (l : List Date) : List Date :=
  sortUnique (fun a b => decide (Date.before a b)) l

/-- `self.grid_average`: group the raw rows by date and average the `ND`
column (`groupby('DATE').agg(DEMAND_AVERAGE=NamedAgg('ND', np.mean)).reset_index()`).
A raw row is a (parsed date, ND reading) pair; an aggregated row is a
(date, DEMAND_AVERAGE) pair, rows ascending by date. -/
def grid_average (rows : List (Date × ℚ)) : List (Date × ℚ) :=
  (uniqueSortedDates (rows.map Prod.fst)).map
    (fun d => (d, listMean ((rows.filter (fun r => r.1 == d)).map Prod.snd)))

/-- The DOY values of the aggregated rows belonging to year `y`, in row
order: `self.grid_average.DOY[self.grid_average.YEAR.values == year]`. -/
def yearDoys (ga : List (Date × ℚ)) (y : Int) : List ℕ :=
  (ga.filter (fun r => r.1.year == y)).map (fun r => r.1.doy)

/-- The accumulation loop of `__init__`: for each year (in the order
`np.unique` yields them) emit `OFFSET + DOY` for that year's rows, then
advance `OFFSET` by the year's maximum DOY. -/
def pseudoGo (ga : List (Date × ℚ)) : List Int → ℕ → List ℕ
  | [], _ => []
  | y :: ys, offset =>
    ((yearDoys ga y).map (fun d => offset + d)) ++
      pseudoGo ga ys (offset + listMax (yearDoys ga y))

/-- The pseudo-day index list `X` built by the constructor loop (before the
division by 365). -/
def pseudoDays (ga : List (Date × ℚ)) : List ℕ :=
  pseudoGo ga (npUnique (ga.map (fun r => r.1.year))) 0

/-- A fitted regression model artifact: anything exposing
`predict(X) -> (mean, confidence)`. -/
structure Model where
  predict : List ℚ → List ℚ × List ℚ

/-- The precomputed-output dictionary artifact consumed by
`load_model_output`, with its fixed key schema. -/
structure OutputDict where
  X_PREDICT : List ℚ
  Y_PREDICT_mean : List ℚ
  Y_PREDICT_conf : List ℚ
  X_COVID : List ℚ
  Y_COVID : List ℚ
  Y_COVID_PREDICT_mean : List ℚ
  Y_COVID_PREDICT_conf : List ℚ

/-- The mutable attribute state of a `GridData` instance.  `X`/`Y` are set
by the constructor; every other attribute is absent (`none`) until one of
the load methods assigns it. -/
structure GridDataState where
  X : List ℚ
  Y : List ℚ
  COVID_CUTOFF : Option ℕ := none
  forecast_limit : Option ℚ := none
  model : Option Model := none
  output_dict : Option OutputDict := none
  X_PREDICT : Option (List ℚ) := none
  Y_PREDICT_mean : Option (List ℚ) := none
  Y_PREDICT_conf : Option (List ℚ) := none
  X_COVID : Option (List ℚ) := none
  Y_COVID : Option (List ℚ) := none
  Y_COVID_PREDICT_mean : Option (List ℚ) := none
  Y_COVID_PREDICT_conf : Option (List ℚ) := none

namespace GridData

/-- `GridData.__init__`: aggregate the rows, build the pseudo-day axis,
convert it to fractional years (`/365`) and demand to GW (`/1000`).
All model-related attributes start absent. -/
def init (rows : List (Date × ℚ)) : GridDataState :=
  { X := (pseudoDays (grid_average rows)).map (fun d : ℕ => (d : ℚ) / 365)
    Y := (grid_average rows).map (fun r => r.2 / 1000) }

/-- `np.linspace a b n` with the default endpoint-inclusive behaviour:
`n` points `a + (b - a) * i / (n - 1)` for `i = 0, …, n-1`. -/
def linspace (a b : ℚ) (n : ℕ) : List ℚ :=
  (List.range n).map (fun i : ℕ => a + (b - a) * (i : ℚ) / ((n : ℚ) - 1))

/-- `GridData.load_model`.  `gpyAvailable` models whether `import GPy`
succeeds: when it does not, the method returns immediately without
touching the state.  Otherwise it sets the cutoff and forecast limit,
stores the unpickled model, predicts over `linspace 0 forecast_limit 1000`,
slices the post-cutoff data, and predicts over that slice. -/
def load_model (gpyAvailable : Bool) (m : Model) (s : GridDataState)
    (forecast_limit : ℚ := 7) : GridDataState :=
  if gpyAvailable then
    let xp := linspace 0 forecast_limit 1000
    let p1 := m.predict xp
    let xc := s.X.drop 1881
    let yc := s.Y.drop 1881
    let p2 := m.predict xc
    { s with
      COVID_CUTOFF := some 1881
      forecast_limit := some forecast_limit
      model := some m
      X_PREDICT := some xp
      Y_PREDICT_mean := some p1.1
      Y_PREDICT_conf := some p1.2
      X_COVID := some xc
      Y_COVID := some yc
      Y_COVID_PREDICT_mean := some p2.1
      Y_COVID_PREDICT_conf := some p2.2 }
  else s

/-- `GridData.load_model_output`: install the seven arrays of a
precomputed-output dictionary, with the cutoff and the (hardcoded)
forecast limit 7. -/
def load_model_output (out : OutputDict) (s : GridDataState) : GridDataState :=
  { s with
    COVID_CUTOFF := some 1881
    forecast_limit := some 7
    output_dict := some out
    X_PREDICT := some out.X_PREDICT
    Y_PREDICT_mean := some out.Y_PREDICT_mean
    Y_PREDICT_conf := some out.Y_PREDICT_conf
    X_COVID := some out.X_COVID
    Y_COVID := some out.Y_COVID
    Y_COVID_PREDICT_mean := some out.Y_COVID_PREDICT_mean
    Y_COVID_PREDICT_conf := some out.Y_COVID_PREDICT_conf }

/-- The output dictionary corresponding to a given model and state: its
entries are exactly the arrays a `load_model` run (default forecast limit)
computes and would have pickled.  This packages the "corresponding
precomputed dictionary" relating the two load variants. -/
def model_output (m : Model) (s : GridDataState) (forecast_limit : ℚ := 7) :
    OutputDict :=
  let xp := linspace 0 forecast_limit 1000
  let p1 := m.predict xp
  let xc := s.X.drop 1881
  let yc := s.Y.drop 1881
  let p2 := m.predict xc
  ⟨xp, p1.1, p1.2, xc, yc, p2.1, p2.2⟩

/-- The fixed 6-color palette of `plot_demand_bkh`. -/
def colors : List String :=
  ["darkgreen", "darkkhaki", "darkmagenta", "darksalmon", "darkred", "gold"]

/-- One per-year line glyph of the collapsed demand plot. -/
structure DemandLine where
  year : Int
  doys : List ℕ
  demands : List ℚ
  color : String

/-- The `collapse=True` loop of `plot_demand_bkh`: one line per distinct
year, colored by `colors[i]` for a counter `i` starting at 0 and
incremented once per year.  `none` models the `IndexError` raised when the
counter reaches the palette length. -/
def demandLinesGo (ga : List (Date × ℚ)) : List Int → ℕ → Option (List DemandLine)
  | [], _ => some []
  | y :: ys, i =>
    match colors[i]? with
    | none => none
    | some c =>
      (demandLinesGo ga ys (i + 1)).map
        (fun ls => { year := y, doys := yearDoys ga y,
                     demands := (ga.filter (fun r => r.1.year == y)).map Prod.snd,
                     color := c } :: ls)

/-- `plot_demand_bkh(collapse=True)` restricted to the data it draws:
iterates the distinct years of the aggregate in ascending order. -/
def plot_demand_bkh_collapse (ga : List (Date × ℚ)) : Option (List DemandLine) :=
  demandLinesGo ga (npUnique (ga.map (fun r => r.1.year))) 0

/-- The data drawn by `plot_demand_discrepancy_bkh`: the common x-axis
(dates from the cutoff on), the optional confidence-band boundaries, the
dashed reference line, and the mean-discrepancy line. -/
structure DiscrepancyPlot where
  dates : List Date
  conf_y1 : Option (List ℚ)
  conf_y2 : Option (List ℚ)
  ref_y : List ℚ
  mean_y : List ℚ

/-- `GridData.plot_demand_discrepancy_bkh` restricted to the data it
draws.  Reading an attribute that was never set raises `AttributeError`
in Python; `none` models that.  All glyphs share the x-values
`grid_average.DATE[COVID_CUTOFF:]`; the band divides `Y_COVID` by
`Y_COVID_PREDICT_mean ± Y_COVID_PREDICT_conf`, the reference line is the
constant 1, and the mean line divides `Y_COVID` by
`Y_COVID_PREDICT_mean`, all elementwise. -/
def plot_demand_discrepancy_bkh (ga : List (Date × ℚ)) (s : GridDataState)
    (plot_confidence : Bool := true) : Option DiscrepancyPlot :=
  match s.COVID_CUTOFF, s.Y_COVID, s.Y_COVID_PREDICT_mean, s.Y_COVID_PREDICT_conf with
  | some cutoff, some yc, some ym, some yconf =>
    let ds := (ga.map Prod.fst).drop cutoff
    some
      { dates := ds
        conf_y1 :=
          if plot_confidence then
            some (List.zipWith (fun a b => a / b) yc (List.zipWith (fun a b => a + b) ym yconf))
          else none
        conf_y2 :=
          if plot_confidence then
            some (List.zipWith (fun a b => a / b) yc (List.zipWith (fun a b => a - b) ym yconf))
          else none
        ref_y := List.replicate ds.length 1
        mean_y := List.zipWith (fun a b => a / b) yc ym }
  | _, _, _, _ => none

end GridData

/-! ### Order facts about dates -/

theorem Date.before_trans {a b c : Date} (h1 : a.before b) (h2 : b.before c) :
    a.before c := by
  unfold Date.before at *
  rcases h1 with h1 | ⟨h1, h1d⟩ <;> rcases h2 with h2 | ⟨h2, h2d⟩
  · exact Or.inl (h1.trans h2)
  · exact Or.inl (h2 ▸ h1)
  · exact Or.inl (h1 ▸ h2)
  · exact Or.inr ⟨h1.trans h2, h1d.trans h2d⟩

theorem Date.before_irrefl (a : Date) : ¬a.before a := by
  unfold Date.before; omega

theorem Date.before_of_not {a b : Date} (h1 : ¬a.before b) (h2 : a ≠ b) :
    b.before a := by
  unfold Date.before at *
  push_neg at h1
  obtain ⟨hy1, hy2⟩ := h1
  rcases eq_or_ne a.year b.year with hy | hy
  · have hd := hy2 hy
    have hdoy : a.doy ≠ b.doy := by
      intro v
      exact h2 (by cases a; cases b; simp_all)
    omega
  · omega

/-! ### Generic facts about `insertUnique` / `sortUnique` -/

theorem mem_insertUnique {α : Type} [BEq α] [LawfulBEq α] (lt : α → α → Bool)
    (a x : α) (l : List α) : x ∈ insertUnique lt a l ↔ x = a ∨ x ∈ l := by
  induction l with
  | nil => simp [insertUnique]
  | cons b bs ih =>
    by_cases h1 : lt a b
    · simp [insertUnique, h1, List.mem_cons]
    · by_cases h2 : a == b
      · have hab : a = b := eq_of_beq h2
        subst hab
        simp [insertUnique, h1, List.mem_cons]
      · simp [insertUnique, h1, h2, List.mem_cons, ih]; tauto

theorem pairwise_insertUnique {α : Type} [BEq α] [LawfulBEq α] {lt : α → α → Bool}
    (htrans : ∀ x y z, lt x y = true → lt y z = true → lt x z = true)
    (hconn : ∀ x y, lt x y = false → (x == y) = false → lt y x = true)
    (a : α) (l : List α) (hl : l.Pairwise (fun x y => lt x y = true)) :
    (insertUnique lt a l).Pairwise (fun x y => lt x y = true) := by
  induction l with
  | nil => simp [insertUnique]
  | cons b bs ih =>
    rw [List.pairwise_cons] at hl
    obtain ⟨hb, hbs⟩ := hl
    by_cases h1 : lt a b
    · simp only [insertUnique, h1, if_true]
      refine List.Pairwise.cons ?_ (List.Pairwise.cons hb hbs)
      intro y hy
      rcases List.mem_cons.mp hy with rfl | hy
      · exact h1
      · exact htrans a b y h1 (hb y hy)
    · by_cases h2 : a == b
      · simpa [insertUnique, h1, h2] using List.Pairwise.cons hb hbs
      · simp only [insertUnique, if_neg h1, if_neg h2]
        refine List.Pairwise.cons ?_ (ih hbs)
        intro y hy
        rcases (mem_insertUnique lt a y bs).mp hy with rfl | hy
        · exact hconn y b (Bool.of_not_eq_true h1) (by simpa using h2)
        · exact hb y hy

theorem pairwise_sortUnique {α : Type} [BEq α] [LawfulBEq α] {lt : α → α → Bool}
    (htrans : ∀ x y z, lt x y = true → lt y z = true → lt x z = true)
    (hconn : ∀ x y, lt x y = false → (x == y) = false → lt y x = true)
    (l : List α) : (sortUnique lt l).Pairwise (fun x y => lt x y = true) := by
  induction l with
  | nil => simp [sortUnique]
  | cons a as ih => exact pairwise_insertUnique htrans hconn a _ ih

theorem mem_sortUnique {α : Type} [BEq α] [LawfulBEq α] (lt : α → α → Bool)
    (l : List α) (x : α) : x ∈ sortUnique lt l ↔ x ∈ l := by
  induction l with
  | nil => simp [sortUnique]
  | cons a as ih =>
    show x ∈ insertUnique lt a (sortUnique lt as) ↔ _
    rw [mem_insertUnique, ih, List.mem_cons]

theorem nodup_sortUnique {α : Type} [BEq α] [LawfulBEq α] {lt : α → α → Bool}
    (htrans : ∀ x y z, lt x y = true → lt y z = true → lt x z = true)
    (hconn : ∀ x y, lt x y = false → (x == y) = false → lt y x = true)
    (hirr : ∀ x, lt x x = false) (l : List α) : (sortUnique lt l).Nodup :=
  (pairwise_sortUnique htrans hconn l).imp
    (fun {a b} hab => by intro he; subst he; rw [hirr a] at hab; cases hab)

theorem length_sortUnique {α : Type} [BEq α] [LawfulBEq α] [DecidableEq α]
    {lt : α → α → Bool}
    (htrans : ∀ x y z, lt x y = true → lt y z = true → lt x z = true)
    (hconn : ∀ x y, lt x y = false → (x == y) = false → lt y x = true)
    (hirr : ∀ x, lt x x = false) (l : List α) :
    (sortUnique lt l).length = l.dedup.length := by
  have h1 : (sortUnique lt l).toFinset = l.dedup.toFinset := by
    apply Finset.ext
    intro a
    simp [List.mem_toFinset, mem_sortUnique, List.mem_dedup]
  calc (sortUnique lt l).length
      = (sortUnique lt l).toFinset.card :=
        (List.toFinset_card_of_nodup (nodup_sortUnique htrans hconn hirr l)).symm
    _ = l.dedup.toFinset.card := by rw [h1]
    _ = l.dedup.length := List.toFinset_card_of_nodup l.nodup_dedup

/-! ### Instantiations for dates and years -/

theorem dateLtb_trans : ∀ x y z : Date, decide (x.before y) = true →
    decide (y.before z) = true → decide (x.before z) = true := by
  intro x y z h1 h2
  exact decide_eq_true (Date.before_trans (of_decide_eq_true h1) (of_decide_eq_true h2))

theorem dateLtb_conn : ∀ x y : Date, decide (x.before y) = false →
    (x == y) = false → decide (y.before x) = true := by
  intro x y h1 h2
  refine decide_eq_true (Date.before_of_not ?_ ?_)
  · intro hb
    rw [decide_eq_true hb] at h1
    cases h1
  · exact ne_of_beq_false h2

theorem dateLtb_irrefl : ∀ x : Date, decide (x.before x) = false := by
  intro x
  exact decide_eq_false (Date.before_irrefl x)

theorem intLtb_trans : ∀ x y z : Int, decide (x < y) = true →
    decide (y < z) = true → decide (x < z) = true := by
  intro x y z h1 h2
  have := of_decide_eq_true h1
  have := of_decide_eq_true h2
  exact decide_eq_true (by omega)

theorem intLtb_conn : ∀ x y : Int, decide (x < y) = false →
    (x == y) = false → decide (y < x) = true := by
  intro x y h1 h2
  have h1' : ¬x < y := of_decide_eq_false h1
  have h2' : x ≠ y := by simpa using h2
  exact decide_eq_true (by omega)

theorem intLtb_irrefl : ∀ x : Int, decide (x < x) = false := by
  intro x
  exact decide_eq_false (by omega)

theorem pairwise_uniqueSortedDates (l : List Date) :
    (uniqueSortedDates l).Pairwise Date.before :=
  (pairwise_sortUnique dateLtb_trans dateLtb_conn l).imp
    (fun hab => of_decide_eq_true hab)

theorem mem_uniqueSortedDates (l : List Date) (x : Date) :
    x ∈ uniqueSortedDates l ↔ x ∈ l :=
  mem_sortUnique _ l x

theorem length_uniqueSortedDates (l : List Date) :
    (uniqueSortedDates l).length = l.dedup.length :=
  length_sortUnique dateLtb_trans dateLtb_conn dateLtb_irrefl l

theorem npUnique_nodup (l : List Int) : (npUnique l).Nodup :=
  nodup_sortUnique intLtb_trans intLtb_conn intLtb_irrefl l

theorem mem_npUnique (l : List Int) (x : Int) : x ∈ npUnique l ↔ x ∈ l :=
  mem_sortUnique _ l x

theorem length_npUnique (l : List Int) : (npUnique l).length = l.dedup.length :=
  length_sortUnique intLtb_trans intLtb_conn intLtb_irrefl l

/-! ### Facts about the daily aggregate -/

theorem grid_average_map_fst (rows : List (Date × ℚ)) :
    (grid_average rows).map Prod.fst = uniqueSortedDates (rows.map Prod.fst) := by
  unfold grid_average
  rw [List.map_map]
  show List.map id _ = _
  exact List.map_id _

theorem grid_average_pairwise (rows : List (Date × ℚ)) :
    (grid_average rows).Pairwise (fun p q => p.1.before q.1) := by
  unfold grid_average
  rw [List.pairwise_map]
  exact pairwise_uniqueSortedDates (rows.map Prod.fst)

theorem mem_grid_average {rows : List (Date × ℚ)} {p : Date × ℚ}
    (hp : p ∈ grid_average rows) :
    p.1 ∈ rows.map Prod.fst ∧
      p.2 = listMean ((rows.filter (fun r => r.1 == p.1)).map Prod.snd) := by
  unfold grid_average at hp
  rcases List.mem_map.mp hp with ⟨d, hd, rfl⟩
  exact ⟨(mem_uniqueSortedDates _ d).mp hd, rfl⟩

/-! ### The pseudo-day axis is strictly increasing -/

theorem le_foldl_max (l : List ℕ) (a : ℕ) :
    a ≤ l.foldl Nat.max a ∧ ∀ x ∈ l, x ≤ l.foldl Nat.max a := by
  induction l generalizing a with
  | nil => simp
  | cons b bs ih =>
    constructor
    · exact le_trans (Nat.le_max_left a b) (ih (Nat.max a b)).1
    · intro x hx
      rcases List.mem_cons.mp hx with rfl | hx
      · exact le_trans (Nat.le_max_right a x) (ih _).1
      · exact (ih _).2 x hx

theorem le_listMax {l : List ℕ} {x : ℕ} (hx : x ∈ l) : x ≤ listMax l :=
  (le_foldl_max l 0).2 x hx

theorem yearDoys_pairwise {ga : List (Date × ℚ)}
    (hga : ga.Pairwise (fun p q => p.1.before q.1)) (y : Int) :
    (yearDoys ga y).Pairwise (· < ·) := by
  unfold yearDoys
  rw [List.pairwise_map]
  have h1 : (ga.filter (fun r => r.1.year == y)).Pairwise (fun p q => p.1.before q.1) :=
    hga.filter _
  have h2 : ∀ r ∈ ga.filter (fun r => r.1.year == y), r.1.year = y := by
    intro r hr
    exact eq_of_beq (List.mem_filter.mp hr).2
  refine h1.imp_of_mem ?_
  intro a b ha hb hab
  have hay := h2 a ha
  have hby := h2 b hb
  unfold Date.before at hab
  rcases hab with h | ⟨_, h⟩
  · omega
  · exact h

theorem mem_yearDoys {ga : List (Date × ℚ)} {y : Int} {d : ℕ}
    (hd : d ∈ yearDoys ga y) : ∃ r ∈ ga, d = r.1.doy := by
  unfold yearDoys at hd
  rcases List.mem_map.mp hd with ⟨r, hr, rfl⟩
  exact ⟨r, List.mem_of_mem_filter hr, rfl⟩

theorem pseudoGo_chain {ga : List (Date × ℚ)}
    (hga : ga.Pairwise (fun p q => p.1.before q.1))
    (hdoy : ∀ r ∈ ga, 1 ≤ r.1.doy) :
    ∀ (ys : List Int) (off : ℕ),
      List.Chain' (· < ·) (pseudoGo ga ys off) ∧
        ∀ x ∈ pseudoGo ga ys off, off < x := by
  intro ys
  induction ys with
  | nil => intro off; simp [pseudoGo]
  | cons y ys ih =>
    intro off
    have hmem_block : ∀ x ∈ (yearDoys ga y).map (fun d => off + d),
        off < x ∧ x ≤ off + listMax (yearDoys ga y) := by
      intro x hx
      rcases List.mem_map.mp hx with ⟨d, hd, rfl⟩
      have hd1 : 1 ≤ d := by
        rcases mem_yearDoys hd with ⟨r, hr, rfl⟩
        exact hdoy r hr
      have hdm := le_listMax hd
      omega
    have hblock : List.Chain' (· < ·) ((yearDoys ga y).map (fun d => off + d)) := by
      have hp : ((yearDoys ga y).map (fun d => off + d)).Pairwise (· < ·) := by
        rw [List.pairwise_map]
        exact (yearDoys_pairwise hga y).imp (fun h => by omega)
      exact hp.chain'
    obtain ⟨ihc, ihm⟩ := ih (off + listMax (yearDoys ga y))
    constructor
    · show List.Chain' (· < ·) (((yearDoys ga y).map (fun d => off + d)) ++
        pseudoGo ga ys (off + listMax (yearDoys ga y)))
      rw [List.chain'_append]
      refine ⟨hblock, ihc, ?_⟩
      intro a ha b hb
      have ha2 := (hmem_block a (List.mem_of_mem_getLast? ha)).2
      have hb2 := ihm b (List.mem_of_mem_head? hb)
      omega
    · intro x hx
      have hx2 : x ∈ ((yearDoys ga y).map (fun d => off + d)) ++
          pseudoGo ga ys (off + listMax (yearDoys ga y)) := hx
      rcases List.mem_append.mp hx2 with hx3 | hx3
      · exact (hmem_block x hx3).1
      · have := ihm x hx3
        omega

/-! ### Length of the pseudo-day axis -/

theorem countP_or_disjoint {α : Type} (p q : α → Bool) (l : List α)
    (h : ∀ a ∈ l, ¬(p a = true ∧ q a = true)) :
    l.countP (fun a => p a || q a) = l.countP p + l.countP q := by
  induction l with
  | nil => simp
  | cons x xs ih =>
    have hx := h x (by simp)
    have ihs := ih (fun a ha => h a (by simp [ha]))
    by_cases hp : p x = true <;> by_cases hq : q x = true <;>
      simp_all [List.countP_cons] <;> omega

theorem pseudoGo_length {ga : List (Date × ℚ)} :
    ∀ ys : List Int, ys.Nodup → ∀ off : ℕ,
      (pseudoGo ga ys off).length = ga.countP (fun r => ys.contains r.1.year) := by
  intro ys
  induction ys with
  | nil =>
    intro _ off
    simp [pseudoGo, List.countP_eq_zero, List.contains]
  | cons y ys ih =>
    intro hnd off
    rw [List.nodup_cons] at hnd
    obtain ⟨hy, hnd⟩ := hnd
    show (((yearDoys ga y).map (fun d => off + d)) ++
      pseudoGo ga ys (off + listMax (yearDoys ga y))).length = _
    rw [List.length_append, List.length_map]
    have h1 : (yearDoys ga y).length = ga.countP (fun r => r.1.year == y) := by
      unfold yearDoys
      rw [List.length_map]
      exact (List.countP_eq_length_filter _ _).symm
    have hdis : ∀ r ∈ ga, ¬((r.1.year == y) = true ∧ ys.contains r.1.year = true) := by
      intro r _ ⟨hb, hc⟩
      have : r.1.year = y := eq_of_beq hb
      subst this
      exact hy (by simpa using hc)
    have hsplit : ga.countP (fun r => (y :: ys).contains r.1.year)
        = ga.countP (fun r => r.1.year == y) + ga.countP (fun r => ys.contains r.1.year) := by
      rw [← countP_or_disjoint _ _ _ hdis]
      apply List.countP_congr
      intro r _
      simp [List.contains_cons]
    rw [h1, ih hnd, hsplit]

theorem init_X_length (rows : List (Date × ℚ)) :
    (GridData.init rows).X.length = (grid_average rows).length := by
  have hX : (GridData.init rows).X
      = List.map (fun d : ℕ => (d : ℚ) / 365) (pseudoDays (grid_average rows)) := rfl
  rw [hX, List.length_map]
  unfold pseudoDays
  rw [pseudoGo_length _ (npUnique_nodup _) 0]
  apply List.countP_eq_length.mpr
  intro r hr
  have : r.1.year ∈ npUnique ((grid_average rows).map (fun r => r.1.year)) :=
    (mem_npUnique _ _).mpr (List.mem_map.mpr ⟨r, hr, rfl⟩)
  simpa using this

theorem init_Y_length (rows : List (Date × ℚ)) :
    (GridData.init rows).Y.length = (grid_average rows).length := by
  show ((grid_average rows).map _).length = _
  rw [List.length_map]

/-! ### Facts about `linspace` -/

theorem linspace_length (a b : ℚ) (n : ℕ) : (GridData.linspace a b n).length = n := by
  simp [GridData.linspace]

theorem linspace_getD (f : ℚ) {i : ℕ} (h : i < 1000) :
    (GridData.linspace 0 f 1000).getD i 0 = f * i / 999 := by
  unfold GridData.linspace
  rw [List.getD_eq_getElem?_getD, List.getElem?_map, List.getElem?_range h]
  norm_num

theorem linspace_step (f : ℚ) {i : ℕ} (h : i + 1 < 1000) :
    (GridData.linspace 0 f 1000).getD (i + 1) 0
      - (GridData.linspace 0 f 1000).getD i 0 = f / 999 := by
  rw [linspace_getD f h, linspace_getD f (by omega)]
  rw [div_sub_div_same]
  congr 1
  push_cast
  ring

theorem linspace_last (f : ℚ) : (GridData.linspace 0 f 1000).getD 999 0 = f := by
  rw [linspace_getD f (by norm_num)]
  norm_num

/-! ### Facts about elementwise division -/

theorem getD_zipWith (f : ℚ → ℚ → ℚ) :
    ∀ (as bs : List ℚ) (i : ℕ), i < as.length → i < bs.length →
      (List.zipWith f as bs).getD i 0 = f (as.getD i 0) (bs.getD i 0) := by
  intro as
  induction as with
  | nil => intro bs i h1 _; simp at h1
  | cons a as ih =>
    intro bs i h1 h2
    cases bs with
    | nil => simp at h2
    | cons b bs =>
      cases i with
      | zero => simp
      | succ k =>
        simp only [List.zipWith_cons_cons, List.getD_cons_succ]
        exact ih bs k (by simpa using h1) (by simpa using h2)

/-! ### Facts about the collapsed demand plot -/

theorem demandLinesGo_isSome (ga : List (Date × ℚ)) :
    ∀ (ys : List Int) (i : ℕ),
      (GridData.demandLinesGo ga ys i).isSome = true ↔ ∀ j < ys.length, i + j < 6 := by
  intro ys
  induction ys with
  | nil => intro i; simp [GridData.demandLinesGo]
  | cons y ys ih =>
    intro i
    by_cases hi : i < GridData.colors.length
    · have hc : GridData.colors[i]? = some GridData.colors[i] := List.getElem?_eq_getElem hi
      have hilt : i < 6 := by simpa [GridData.colors] using hi
      simp only [GridData.demandLinesGo, hc]
      rw [show ∀ o : Option (List GridData.DemandLine), ∀ g : List GridData.DemandLine →
        List GridData.DemandLine, (o.map g).isSome = o.isSome from fun o g => by simp]
      rw [ih (i + 1)]
      constructor
      · intro h j hj
        cases j with
        | zero => omega
        | succ k =>
          have := h k (by simpa using hj)
          omega
      · intro h j hj
        have := h (j + 1) (by simpa using hj)
        omega
    · have hc : GridData.colors[i]? = none := List.getElem?_eq_none (by omega)
      simp only [GridData.demandLinesGo, hc]
      refine iff_of_false (by simp) ?_
      intro h
      have := h 0 (by simp)
      have h6 : GridData.colors.length = 6 := rfl
      omega

/-! ### Concrete example data used to witness the claims -/

/-- Example parsed CSV: two readings on 01-Jan-2015 (mean 30000 MW), one on
31-Dec-2015 (day-of-year 365, the first-year maximum), and one on
31-Dec-2016 (day-of-year 366, a leap year). -/
def rowsEx : List (Date × ℚ) :=
  [(⟨2015, 1⟩, 28000), (⟨2015, 1⟩, 32000), (⟨2015, 365⟩, 20000), (⟨2016, 366⟩, 28500)]

/-- A trivial model artifact: predicts mean and confidence equal to the input. -/
def idModel : Model := ⟨fun l => (l, l)⟩

/-- A fresh state whose data arrays are empty. -/
def emptyState : GridDataState := { X := [], Y := [] }

/-- A state with exactly 1881 data points, enough to reach the cutoff. -/
def bigState : GridDataState := { X := List.replicate 1881 0, Y := [] }

/-- An example aggregate with one row, used with the discrepancy plot. -/
def gaEx : List (Date × ℚ) := [(⟨2020, 1⟩, 2000)]

/-- A post-load state where the predicted confidence equals the predicted
mean at the only point, so the lower confidence divisor is zero. -/
def plotState : GridDataState :=
  { X := [], Y := []
    COVID_CUTOFF := some 0
    Y_COVID := some [2]
    Y_COVID_PREDICT_mean := some [1]
    Y_COVID_PREDICT_conf := some [1] }

/-- An example aggregate covering seven distinct years. -/
def gaSevenYears : List (Date × ℚ) :=
  [(⟨2010, 1⟩, 1), (⟨2011, 1⟩, 1), (⟨2012, 1⟩, 1), (⟨2013, 1⟩, 1),
   (⟨2014, 1⟩, 1), (⟨2015, 1⟩, 1), (⟨2016, 1⟩, 1)]

/-! ### The claims -/

/-- Claim C1: after `load_model` (GPy importable, given a model) and after
`load_model_output` (given the corresponding precomputed dictionary), the
`GridData` object is in an equivalent state: the same prediction
attributes are populated, and for the same underlying model the
`X_PREDICT` and `Y_PREDICT_mean` arrays (and the other five) produced by
the two variants are numerically identical, as are the cutoff and the
forecast limit. -/
theorem C1_load_variants_equivalent (m : Model) (s : GridDataState) :
    (GridData.load_model true m s).X_PREDICT
        = (GridData.load_model_output (GridData.model_output m s) s).X_PREDICT ∧
    (GridData.load_model true m s).Y_PREDICT_mean
        = (GridData.load_model_output (GridData.model_output m s) s).Y_PREDICT_mean ∧
    (GridData.load_model true m s).Y_PREDICT_conf
        = (GridData.load_model_output (GridData.model_output m s) s).Y_PREDICT_conf ∧
    (GridData.load_model true m s).X_COVID
        = (GridData.load_model_output (GridData.model_output m s) s).X_COVID ∧
    (GridData.load_model true m s).Y_COVID
        = (GridData.load_model_output (GridData.model_output m s) s).Y_COVID ∧
    (GridData.load_model true m s).Y_COVID_PREDICT_mean
        = (GridData.load_model_output (GridData.model_output m s) s).Y_COVID_PREDICT_mean ∧
    (GridData.load_model true m s).Y_COVID_PREDICT_conf
        = (GridData.load_model_output (GridData.model_output m s) s).Y_COVID_PREDICT_conf ∧
    (GridData.load_model true m s).COVID_CUTOFF
        = (GridData.load_model_output (GridData.model_output m s) s).COVID_CUTOFF ∧
    (GridData.load_model true m s).forecast_limit
        = (GridData.load_model_output (GridData.model_output m s) s).forecast_limit ∧
    (GridData.load_model true m s).X_PREDICT.isSome = true ∧
    (GridData.load_model true m s).Y_PREDICT_mean.isSome = true ∧
    (GridData.load_model true m s).Y_PREDICT_conf.isSome = true ∧
    (GridData.load_model true m s).X_COVID.isSome = true ∧
    (GridData.load_model true m s).Y_COVID.isSome = true ∧
    (GridData.load_model true m s).Y_COVID_PREDICT_mean.isSome = true ∧
    (GridData.load_model true m s).Y_COVID_PREDICT_conf.isSome = true := by
  set_option maxRecDepth 4000 in
  exact ⟨rfl, rfl, rfl, rfl, rfl, rfl, rfl, rfl, rfl,
    rfl, rfl, rfl, rfl, rfl, rfl, rfl⟩

/-- Claim C4: if the optional GPy dependency cannot be imported,
`load_model` returns without setting any attribute: the state is exactly
what it was before the call, and on a freshly constructed object the
cutoff, forecast limit, model and all six prediction attributes remain
absent. -/
theorem C4_gpy_missing_noop (rows : List (Date × ℚ)) (m : Model) (f : ℚ)
    (s : GridDataState) :
    GridData.load_model false m s f = s ∧
    (GridData.load_model false m (GridData.init rows) f).COVID_CUTOFF = none ∧
    (GridData.load_model false m (GridData.init rows) f).forecast_limit = none ∧
    (GridData.load_model false m (GridData.init rows) f).model = none ∧
    (GridData.load_model false m (GridData.init rows) f).X_PREDICT = none ∧
    (GridData.load_model false m (GridData.init rows) f).Y_PREDICT_mean = none ∧
    (GridData.load_model false m (GridData.init rows) f).Y_PREDICT_conf = none ∧
    (GridData.load_model false m (GridData.init rows) f).X_COVID = none ∧
    (GridData.load_model false m (GridData.init rows) f).Y_COVID = none ∧
    (GridData.load_model false m (GridData.init rows) f).Y_COVID_PREDICT_mean = none ∧
    (GridData.load_model false m (GridData.init rows) f).Y_COVID_PREDICT_conf = none :=
  ⟨rfl, rfl, rfl, rfl, rfl, rfl, rfl, rfl, rfl, rfl, rfl⟩

/-- Claim C2: for every input whose settlement dates parse as valid dates
(day-of-year at least 1), the continuous time axis `self.X` built by the
constructor is strictly increasing over the whole dataset: each element is
strictly greater than the previous one, including across year
boundaries. -/
theorem C2_X_strictly_increasing (rows : List (Date × ℚ))
    (hvalid : ∀ r ∈ rows, 1 ≤ r.1.doy) :
    List.Chain' (· < ·) (GridData.init rows).X := by
  have hga := grid_average_pairwise rows
  have hdoy : ∀ r ∈ grid_average rows, 1 ≤ r.1.doy := by
    intro r hr
    rcases List.mem_map.mp (mem_grid_average hr).1 with ⟨q, hq, he⟩
    have := hvalid q hq
    rw [← he]
    exact this
  have hchain := (pseudoGo_chain hga hdoy
    (npUnique ((grid_average rows).map (fun r => r.1.year))) 0).1
  have hX : (GridData.init rows).X
      = List.map (fun d : ℕ => (d : ℚ) / 365) (pseudoDays (grid_average rows)) := rfl
  rw [hX]
  refine List.chain'_map_of_chain' _ ?_ hchain
  intro a b hab
  have hq : (a : ℚ) < b := by exact_mod_cast hab
  exact div_lt_div_of_pos_right hq (by norm_num)

/-- Witness for C2 at the concrete example dataset. -/
theorem C2_X_strictly_increasing_witness :
    (∀ r ∈ rowsEx, 1 ≤ r.1.doy) ∧ List.Chain' (· < ·) (GridData.init rowsEx).X :=
  ⟨by decide, C2_X_strictly_increasing rowsEx (by decide)⟩

/-- Claim C3: after a successful `load_model` call (GPy present), the
post-cutoff slices satisfy `len X_COVID = len Y_COVID = total rows - 1881`
whenever the data has at least 1881 rows, and are empty when the cutoff
index is not less than the row count; on a constructed object the lengths
of `X` and `Y` both equal the number of aggregated rows. -/
theorem C3_post_cutoff_lengths (rows : List (Date × ℚ)) (m : Model) (f : ℚ)
    (s : GridDataState) :
    (GridData.init rows).X.length = (grid_average rows).length ∧
    (GridData.init rows).Y.length = (grid_average rows).length ∧
    (1881 ≤ s.X.length →
      ((GridData.load_model true m s f).X_COVID.getD []).length = s.X.length - 1881) ∧
    (1881 ≤ s.Y.length →
      ((GridData.load_model true m s f).Y_COVID.getD []).length = s.Y.length - 1881) ∧
    (s.X.length ≤ 1881 → (GridData.load_model true m s f).X_COVID = some []) ∧
    (s.Y.length ≤ 1881 → (GridData.load_model true m s f).Y_COVID = some []) := by
  have hx : (GridData.load_model true m s f).X_COVID = some (s.X.drop 1881) := rfl
  have hy : (GridData.load_model true m s f).Y_COVID = some (s.Y.drop 1881) := rfl
  refine ⟨init_X_length rows, init_Y_length rows, ?_, ?_, ?_, ?_⟩
  · intro _
    rw [hx]
    simp [List.length_drop]
  · intro _
    rw [hy]
    simp [List.length_drop]
  · intro h
    rw [hx, List.drop_eq_nil_of_le h]
  · intro h
    rw [hy, List.drop_eq_nil_of_le h]

/-- Witness for C3: a state with exactly 1881 points on the X side (slice
length 0) and an empty Y side (empty slice). -/
theorem bigState_X_length : bigState.X.length = 1881 := by
  rw [show bigState.X = List.replicate 1881 (0 : ℚ) from rfl, List.length_replicate]

theorem C3_post_cutoff_lengths_witness :
    1881 ≤ bigState.X.length ∧
    ((GridData.load_model true idModel bigState 7).X_COVID.getD []).length
      = bigState.X.length - 1881 ∧
    (GridData.load_model true idModel bigState 7).Y_COVID = some [] :=
  ⟨le_of_eq bigState_X_length.symm,
    (C3_post_cutoff_lengths [] idModel 7 bigState).2.2.1
      (le_of_eq bigState_X_length.symm),
    (C3_post_cutoff_lengths [] idModel 7 bigState).2.2.2.2.2
      (by rw [show bigState.Y = ([] : List ℚ) from rfl]; simp)⟩

/-- Claim C5: for an input with N distinct calendar dates, the daily
aggregate table has exactly N rows, ordered strictly ascending by date,
its date column has exactly the distinct input dates, and each row's
DEMAND_AVERAGE is the mean of the ND values sharing that date. -/
theorem C5_aggregate_shape (rows : List (Date × ℚ)) :
    (grid_average rows).length = (rows.map Prod.fst).dedup.length ∧
    (grid_average rows).Pairwise (fun p q => p.1.before q.1) ∧
    (∀ d : Date, d ∈ (grid_average rows).map Prod.fst ↔ d ∈ rows.map Prod.fst) ∧
    (∀ p ∈ grid_average rows,
      p.2 = listMean ((rows.filter (fun r => r.1 == p.1)).map Prod.snd)) := by
  refine ⟨?_, grid_average_pairwise rows, ?_, ?_⟩
  · have h1 : (grid_average rows).length
        = (uniqueSortedDates (rows.map Prod.fst)).length := by
      unfold grid_average
      rw [List.length_map]
    rw [h1, length_uniqueSortedDates]
  · intro d
    rw [grid_average_map_fst, mem_uniqueSortedDates]
  · intro p hp
    exact (mem_grid_average hp).2

set_option maxRecDepth 100000 in
theorem grid_average_rowsEx_eq : grid_average rowsEx
    = [(⟨2015, 1⟩, 30000), (⟨2015, 365⟩, 20000), (⟨2016, 366⟩, 28500)] := by
  with_unfolding_all rfl

/-- Witness for C5: in the example dataset the 01-Jan-2015 aggregate row
averages the two readings of that date to 30000 MW. -/
theorem C5_aggregate_shape_witness :
    ((⟨2015, 1⟩ : Date), (30000 : ℚ)) ∈ grid_average rowsEx ∧
    (30000 : ℚ)
      = listMean ((rowsEx.filter (fun r => r.1 == (⟨2015, 1⟩ : Date))).map Prod.snd) :=
  ⟨by rw [grid_average_rowsEx_eq]; exact List.mem_cons_self _ _,
    (C5_aggregate_shape rowsEx).2.2.2 ((⟨2015, 1⟩ : Date), (30000 : ℚ))
      (by rw [grid_average_rowsEx_eq]; exact List.mem_cons_self _ _)⟩

/-- Claim C6: the constructor converts every pseudo-day index to
fractional years by dividing by 365 (no leap-year correction) and every
mean demand from MW to GW by dividing by 1000; concretely, a mean demand
of 30000 MW yields Y = 30 GW, and day-of-year 366 in the second year atop
a first-year maximum of 365 yields pseudo-day 731 and X = 731/365
(about 2.0027) fractional years. -/
theorem C6_unit_conversions (rows : List (Date × ℚ)) :
    (GridData.init rows).X
        = (pseudoDays (grid_average rows)).map (fun d : ℕ => (d : ℚ) / 365) ∧
    (GridData.init rows).Y = (grid_average rows).map (fun r => r.2 / 1000) ∧
    (GridData.init rowsEx).Y.getD 0 0 = 30 ∧
    pseudoDays (grid_average rowsEx) = [1, 365, 731] ∧
    (GridData.init rowsEx).X.getD 2 0 = 731 / 365 := by
  set_option maxRecDepth 100000 in
  exact ⟨rfl, rfl, by with_unfolding_all rfl, by with_unfolding_all rfl,
    by with_unfolding_all rfl⟩

/-- Claim C7: a successful `load_model` sets `X_PREDICT` to exactly 1000
evenly spaced points from 0 to the forecast limit inclusive (the column
shape of the numpy array is not modelled), and the default forecast limit
is 7. -/
theorem C7_predict_grid (m : Model) (s : GridDataState) (f : ℚ) (i : ℕ)
    (hi : i + 1 < 1000) :
    (GridData.load_model true m s f).X_PREDICT = some (GridData.linspace 0 f 1000) ∧
    GridData.load_model true m s = GridData.load_model true m s 7 ∧
    (GridData.linspace 0 f 1000).length = 1000 ∧
    (GridData.linspace 0 f 1000).getD 0 0 = 0 ∧
    (GridData.linspace 0 f 1000).getD 999 0 = f ∧
    (GridData.linspace 0 f 1000).getD i 0 = f * i / 999 ∧
    (GridData.linspace 0 f 1000).getD (i + 1) 0
        - (GridData.linspace 0 f 1000).getD i 0 = f / 999 := by
  refine ⟨rfl, rfl, linspace_length 0 f 1000, ?_, linspace_last f,
    linspace_getD f (by omega), linspace_step f hi⟩
  rw [linspace_getD f (by norm_num)]
  norm_num

/-- Witness for C7 at the default forecast limit and the first step. -/
theorem C7_predict_grid_witness :
    0 + 1 < 1000 ∧
    (GridData.linspace 0 7 1000).getD 999 0 = 7 ∧
    (GridData.linspace 0 7 1000).getD (0 + 1) 0
        - (GridData.linspace 0 7 1000).getD 0 0 = 7 / 999 :=
  ⟨by norm_num, (C7_predict_grid idModel emptyState 7 0 (by norm_num)).2.2.2.2.1,
    (C7_predict_grid idModel emptyState 7 0 (by norm_num)).2.2.2.2.2.2⟩

/-- Claim C8: in `plot_demand_discrepancy_bkh` the mean-discrepancy line's
y-values are the elementwise ratio `Y_COVID / Y_COVID_PREDICT_mean`, the
dashed reference line is constantly 1, and both share the post-cutoff
x-axis `grid_average.DATE[COVID_CUTOFF:]`. -/
theorem C8_discrepancy_lines (ga : List (Date × ℚ)) (s : GridDataState)
    (c : ℕ) (yc ym yconf : List ℚ)
    (hc : s.COVID_CUTOFF = some c) (hyc : s.Y_COVID = some yc)
    (hym : s.Y_COVID_PREDICT_mean = some ym)
    (hyconf : s.Y_COVID_PREDICT_conf = some yconf) :
    ∃ p : GridData.DiscrepancyPlot,
      GridData.plot_demand_discrepancy_bkh ga s true = some p ∧
      p.mean_y = List.zipWith (fun a b => a / b) yc ym ∧
      (∀ i : ℕ, i < yc.length → i < ym.length →
        p.mean_y.getD i 0 = yc.getD i 0 / ym.getD i 0) ∧
      (∀ y ∈ p.ref_y, y = 1) ∧
      p.dates = (ga.map Prod.fst).drop c ∧
      p.ref_y.length = p.dates.length := by
  unfold GridData.plot_demand_discrepancy_bkh
  rw [hc, hyc, hym, hyconf]
  refine ⟨_, rfl, rfl, ?_, ?_, rfl, ?_⟩
  · intro i h1 h2
    exact getD_zipWith (fun a b => a / b) yc ym i h1 h2
  · intro y hy
    exact List.eq_of_mem_replicate hy
  · simp

/-- Witness for C8 at a one-point post-cutoff state. -/
theorem C8_discrepancy_lines_witness :
    ∃ p : GridData.DiscrepancyPlot,
      GridData.plot_demand_discrepancy_bkh gaEx plotState true = some p ∧
      p.mean_y = List.zipWith (fun a b => a / b) [2] [1] ∧
      p.mean_y.getD 0 0 = (2 : ℚ) / 1 := by
  obtain ⟨p, h1, h2, h3, -, -, -⟩ :=
    C8_discrepancy_lines gaEx plotState 0 [2] [1] [1] rfl rfl rfl rfl
  refine ⟨p, h1, h2, ?_⟩
  have := h3 0 (by norm_num) (by norm_num)
  simpa using this

/-- Claim C10: with `plot_confidence=True` the confidence band divides
`Y_COVID` elementwise by `Y_COVID_PREDICT_mean + Y_COVID_PREDICT_conf`
and by `Y_COVID_PREDICT_mean - Y_COVID_PREDICT_conf` with no guard; a
divisor vanishes at a point exactly when the confidence equals the
negated (resp. positive) mean there, so in particular the lower divisor
is zero wherever the confidence equals the mean. -/
theorem C10_confidence_band_divisors (ga : List (Date × ℚ)) (s : GridDataState)
    (c : ℕ) (yc ym yconf : List ℚ)
    (hc : s.COVID_CUTOFF = some c) (hyc : s.Y_COVID = some yc)
    (hym : s.Y_COVID_PREDICT_mean = some ym)
    (hyconf : s.Y_COVID_PREDICT_conf = some yconf) :
    ∃ p : GridData.DiscrepancyPlot,
      GridData.plot_demand_discrepancy_bkh ga s true = some p ∧
      p.conf_y1 = some (List.zipWith (fun a b => a / b) yc
        (List.zipWith (fun a b => a + b) ym yconf)) ∧
      p.conf_y2 = some (List.zipWith (fun a b => a / b) yc
        (List.zipWith (fun a b => a - b) ym yconf)) ∧
      (∀ i : ℕ, i < ym.length → i < yconf.length →
        ((List.zipWith (fun a b => a - b) ym yconf).getD i 0 = 0
          ↔ yconf.getD i 0 = ym.getD i 0)) ∧
      (∀ i : ℕ, i < ym.length → i < yconf.length →
        ((List.zipWith (fun a b => a + b) ym yconf).getD i 0 = 0
          ↔ yconf.getD i 0 = -(ym.getD i 0))) := by
  unfold GridData.plot_demand_discrepancy_bkh
  rw [hc, hyc, hym, hyconf]
  refine ⟨_, rfl, rfl, rfl, ?_, ?_⟩
  · intro i h1 h2
    rw [getD_zipWith (fun a b => a - b) ym yconf i h1 h2]
    rw [sub_eq_zero]
    exact eq_comm
  · intro i h1 h2
    rw [getD_zipWith (fun a b => a + b) ym yconf i h1 h2]
    constructor
    · intro h
      linarith
    · intro h
      rw [h]
      ring

/-- Witness for C10: confidence equal to the mean at the only point makes
the lower band divisor zero. -/
theorem C10_confidence_band_divisors_witness :
    ∃ p : GridData.DiscrepancyPlot,
      GridData.plot_demand_discrepancy_bkh gaEx plotState true = some p ∧
      p.conf_y2 = some (List.zipWith (fun a b => a / b) [2]
        (List.zipWith (fun a b => a - b) [1] [1])) ∧
      (List.zipWith (fun a b : ℚ => a - b) [1] [1]).getD 0 0 = 0 := by
  obtain ⟨p, h1, -, h2, h3, -⟩ :=
    C10_confidence_band_divisors gaEx plotState 0 [2] [1] [1] rfl rfl rfl rfl
  refine ⟨p, h1, h2, ?_⟩
  exact (h3 0 (by norm_num) (by norm_num)).mpr (by norm_num)

/-- Claim C9: `plot_demand_bkh` with `collapse=True` indexes a fixed
palette of exactly 6 colors by a counter incremented once per distinct
year, so a dataset with more than 6 distinct years hits an out-of-range
index (modelled as `none`) before completing, while at most 6 distinct
years stay in bounds. -/
theorem C9_palette_overflow (ga : List (Date × ℚ)) :
    GridData.colors.length = 6 ∧
    (6 < ((ga.map (fun r => r.1.year)).dedup).length →
      GridData.plot_demand_bkh_collapse ga = none) ∧
    (((ga.map (fun r => r.1.year)).dedup).length ≤ 6 →
      (GridData.plot_demand_bkh_collapse ga).isSome = true) := by
  have hlen : (npUnique (ga.map (fun r => r.1.year))).length
      = ((ga.map (fun r => r.1.year)).dedup).length := length_npUnique _
  have hplot : GridData.plot_demand_bkh_collapse ga
      = GridData.demandLinesGo ga (npUnique (ga.map (fun r => r.1.year))) 0 := rfl
  refine ⟨rfl, ?_, ?_⟩
  · intro h
    rw [hplot, ← Option.not_isSome_iff_eq_none]
    rw [demandLinesGo_isSome]
    intro hall
    have := hall 6 (by omega)
    omega
  · intro h
    rw [hplot, demandLinesGo_isSome]
    intro j hj
    omega

/-- Witness for C9: seven distinct years overflow the palette; the
four-row example dataset (two distinct years) stays in bounds. -/
theorem C9_palette_overflow_witness :
    GridData.plot_demand_bkh_collapse gaSevenYears = none ∧
    (GridData.plot_demand_bkh_collapse rowsEx).isSome = true :=
  ⟨(C9_palette_overflow gaSevenYears).2.1 (by decide),
    (C9_palette_overflow rowsEx).2.2 (by decide)⟩
